import Mathlib

/-!
Shallow embedding of the book-catalog router (`src/server/routes/books.js`),
an Express router over an in-memory collection `books : List Book`.

Each route handler is modelled as a state-passing function
`List Book → input → List Book × response`, where the first component of the
result is the collection after the request.  JavaScript numeric results that
may be NaN (`parseInt`, `parseFloat`) are modelled as `Option`: `none` stands
for NaN.  Query parameters arrive as optional strings, exactly as Express
delivers them; body fields that the code feeds to `parseInt`/`parseFloat`
are modelled as JSON scalars (number or string).
-/

namespace BooksApi

/-- Numeric value of a list of decimal digit characters. -/
def digitsVal (ds : List Char) : Nat :=
  ds.foldl (fun a c => a * 10 + (c.toNat - 48)) 0

/-- Model of the JS builtin `parseInt` on decimal strings: an optional sign
followed by the longest run of digits; trailing characters are ignored, and
no leading digits gives NaN (`none`). -/
def parseIntJS (s : String) : Option Int :=
  let cs := s.data
  let signNeg : Bool :=
    match cs with
    | c :: _ => c = '-'
    | [] => false
  let rest : List Char :=
    match cs with
    | c :: r => if c = '-' ∨ c = '+' then r else c :: r
    | [] => []
  let ds := rest.takeWhile Char.isDigit
  if ds.isEmpty then none
  else if signNeg then some (-(digitsVal ds : Int)) else some (digitsVal ds : Int)

/-- Model of the JS builtin `parseFloat` on plain decimal literals: an
optional sign, integer digits, and an optional fractional part after a dot;
no digits at all gives NaN (`none`).  Trailing characters are ignored. -/
def parseFloatJS (s : String) : Option ℚ :=
  let cs := s.data
  let signNeg : Bool :=
    match cs with
    | c :: _ => c = '-'
    | [] => false
  let rest : List Char :=
    match cs with
    | c :: r => if c = '-' ∨ c = '+' then r else c :: r
    | [] => []
  let ip := rest.takeWhile Char.isDigit
  let rest2 := rest.dropWhile Char.isDigit
  let fp : List Char :=
    match rest2 with
    | '.' :: r2 => r2.takeWhile Char.isDigit
    | _ => []
  if ip.isEmpty ∧ fp.isEmpty then none
  else
    let mag : ℚ := (digitsVal ip : ℚ) + (digitsVal fp : ℚ) / ((10 : ℚ) ^ fp.length)
    some (if signNeg then -mag else mag)

/-- A JSON scalar as it can arrive in a request body: a number or a string. -/
inductive JSVal where
  | num (q : ℚ)
  | str (s : String)
deriving Repr, DecidableEq

/-- JS truthiness of a scalar: the number 0 and the empty string are falsy,
everything else is truthy. -/
def JSVal.truthy : JSVal → Bool
  | .num q => q ≠ 0
  | .str s => s ≠ ""

/-- JS `parseFloat` applied to a scalar value. -/
def JSVal.toNumF : JSVal → Option ℚ
  | .num q => some q
  | .str s => parseFloatJS s

/-- JS `parseInt` applied to a scalar value (a number is truncated toward
zero, as `parseInt` does after stringifying it). -/
def JSVal.toIntT : JSVal → Option Int
  | .num q => some (q.num.tdiv q.den)
  | .str s => parseIntJS s

/-- JS truthiness of a possibly-absent string (absent and `""` are falsy). -/
def strTruthy : Option String → Bool
  | some s => s ≠ ""
  | none => false

/-- JS truthiness of a possibly-absent scalar. -/
def valTruthy : Option JSVal → Bool
  | some v => v.truthy
  | none => false

/-- JS `x || d` for a possibly-absent string `x`. -/
def strOr (o : Option String) (d : String) : String :=
  match o with
  | some s => if s = "" then d else s
  | none => d

/-- JS `parseInt x || d` for a possibly-absent scalar `x`: both NaN and 0
fall back to the default. -/
def intOr (o : Option JSVal) (d : Int) : Int :=
  match o.bind JSVal.toIntT with
  | some k => if k = 0 then d else k
  | none => d

/-- One record of the in-memory `books` collection.  `price` is stored as
`parseFloat` of the request value, hence `Option ℚ` with `none` for NaN. -/
structure Book where
  id : Int
  title : String
  author : String
  isbn : String
  publishedYear : Int
  genre : String
  price : Option ℚ
  description : String
  pages : Int
  publisher : String
  language : String
  rating : ℚ
  stock : Int
  image : String
  createdAt : String
deriving Repr, DecidableEq

/-- Does the character list `pre` occur at the start of `l`? -/
def leadMatch : List Char → List Char → Bool
  | [], _ => true
  | _ :: _, [] => false
  | a :: pre2, b :: l2 => a = b && leadMatch pre2 l2

/-- Does `needle` occur contiguously inside the character list? -/
def hasSubList (needle : List Char) : List Char → Bool
  | [] => needle.isEmpty
  | a :: t => leadMatch needle (a :: t) || hasSubList needle t

/-- JS `hay.includes(needle)`: contiguous substring test. -/
def includesSub (hay needle : String) : Bool :=
  hasSubList needle.data hay.data

/-- Search filter body (lines 17–22): the lowercased term is sought in the
lowercased title, author, description and genre. -/
def searchP (s : String) (b : Book) : Bool :=
  let t := s.toLower
  includesSub b.title.toLower t || includesSub b.author.toLower t ||
    includesSub b.description.toLower t || includesSub b.genre.toLower t

/-- Author filter body (line 27): case-insensitive substring. -/
def authorP (a : String) (b : Book) : Bool :=
  includesSub b.author.toLower a.toLower

/-- Genre filter body (line 32): case-insensitive exact match. -/
def genreP (g : String) (b : Book) : Bool :=
  b.genre.toLower = g.toLower

/-- Minimum-price filter body (line 37): `book.price >= parseFloat m`;
any NaN makes the comparison false. -/
def minPriceP (m : String) (b : Book) : Bool :=
  match b.price, parseFloatJS m with
  | some p, some q => q ≤ p
  | _, _ => false

/-- Maximum-price filter body (line 40): `book.price <= parseFloat m`;
any NaN makes the comparison false. -/
def maxPriceP (m : String) (b : Book) : Bool :=
  match b.price, parseFloatJS m with
  | some p, some q => p ≤ q
  | _, _ => false

/-- Year filter body (line 45): `book.publishedYear === parseInt y`;
NaN compares unequal to every number. -/
def yearP (y : String) (b : Book) : Bool :=
  match parseIntJS y with
  | some k => b.publishedYear = k
  | none => false

/-- Query parameters of `GET /books`, each an optional string as delivered
by Express. -/
structure Query where
  search : Option String := none
  author : Option String := none
  genre : Option String := none
  minPrice : Option String := none
  maxPrice : Option String := none
  year : Option String := none
  limit : Option String := none
deriving Repr, DecidableEq

/-- `if (param) list = list.filter(p param)`: the filter runs only when the
parameter is present and truthy (a present empty string is falsy). -/
def condFilter (o : Option String) (p : String → Book → Bool) (l : List Book) : List Book :=
  match o with
  | some s => if s = "" then l else l.filter (p s)
  | none => l

/-- Whether a book passes one conditional filter (vacuously when the
parameter is absent or falsy). -/
def condPass (o : Option String) (p : String → Book → Bool) (b : Book) : Bool :=
  match o with
  | some s => if s = "" then true else p s b
  | none => true

/-- The six filters of `GET /books` applied in source order
(search, author, genre, minPrice, maxPrice, year). -/
def applyFilters (books : List Book) (q : Query) : List Book :=
  condFilter q.year yearP
    (condFilter q.maxPrice maxPriceP
      (condFilter q.minPrice minPriceP
        (condFilter q.genre genreP
          (condFilter q.author authorP
            (condFilter q.search searchP books)))))

/-- Conjunction of all supplied filter predicates of a query. -/
def matchesQuery (q : Query) (b : Book) : Bool :=
  condPass q.year yearP b &&
    (condPass q.maxPrice maxPriceP b &&
      (condPass q.minPrice minPriceP b &&
        (condPass q.genre genreP b &&
          (condPass q.author authorP b && condPass q.search searchP b))))

/-- JS `arr.slice(0, e)` where `e` came from `parseInt`: `none` (NaN) is
converted to 0 by `slice`, and a negative end counts from the end. -/
def jsSlice (l : List Book) (e : Option Int) : List Book :=
  match e with
  | none => []
  | some k => if 0 ≤ k then l.take k.toNat else l.take ((l.length : Int) + k).toNat

/-- The effective `limit`: the destructuring default 22 when the parameter
is absent, otherwise `parseInt` of the given string. -/
def effLimit (q : Query) : Option Int :=
  match q.limit with
  | none => some 22
  | some s => parseIntJS s

/-- Response body of `GET /books`. -/
structure ListResp where
  books : List Book
  total : Nat
  showing : Nat
deriving Repr, DecidableEq

/-- Handler of `GET /books` (lines 8–59): filter a copy of the collection,
truncate with `slice`, and report total and showing counts. -/
def handleGetBooks (books : List Book) (q : Query) : List Book × ListResp :=
  let filtered := applyFilters books q
  let limited := jsSlice filtered (effLimit q)
  (books, { books := limited, total := filtered.length, showing := limited.length })

/-- Response of `GET /books/:id`: the 404 case or the found record. -/
inductive GetResp where
  | notFound
  | ok (b : Book)
deriving Repr, DecidableEq

/-- Id comparison of the `:id` routes: `b.id === parseInt(idStr)`;
a NaN id parameter matches no record. -/
def idMatch (idStr : String) (b : Book) : Bool :=
  match parseIntJS idStr with
  | some k => b.id = k
  | none => false

/-- Handler of `GET /books/:id` (lines 62–72). -/
def handleGetBook (books : List Book) (idStr : String) : List Book × GetResp :=
  match books.find? (idMatch idStr) with
  | some b => (books, .ok b)
  | none => (books, .notFound)

/-- First-occurrence deduplication with an accumulator of already-seen
values: the iteration order of JS `new Set(xs)`. -/
def setDedupAux (seen : List String) : List String → List String
  | [] => []
  | a :: l => if a ∈ seen then setDedupAux seen l else a :: setDedupAux (a :: seen) l

/-- JS `[...new Set(xs)]`: the distinct values of `xs` in first-occurrence
order. -/
def setDedup (xs : List String) : List String :=
  setDedupAux [] xs

/-- Lexicographic less-or-equal on character lists, the comparison the JS
default `sort()` performs on strings. -/
def charListLe : List Char → List Char → Bool
  | [], _ => true
  | _ :: _, [] => false
  | a :: l1, b :: l2 => if a < b then true else if b < a then false else charListLe l1 l2

/-- Lexicographic less-or-equal on strings. -/
def strLeB (a b : String) : Bool :=
  charListLe a.data b.data

/-- JS `[...new Set(xs)].sort()`: distinct values sorted lexicographically
(modelled with insertion sort; only the sorted result is specified). -/
def sortedDistinct (xs : List String) : List String :=
  List.insertionSort (fun a b => strLeB a b = true) (setDedup xs)

/-- Handler of `GET /books/meta/genres` (lines 75–82). -/
def handleGenres (books : List Book) : List Book × List String :=
  (books, sortedDistinct (books.map (fun b => b.genre)))

/-- Handler of `GET /books/meta/authors` (lines 85–92). -/
def handleAuthors (books : List Book) : List Book × List String :=
  (books, sortedDistinct (books.map (fun b => b.author)))

/-- Request body of `POST /books`.  Fields the code copies verbatim are
optional strings; fields it feeds to `parseInt`/`parseFloat`, or whose
truthiness it tests numerically, are optional JSON scalars. -/
structure CreateBody where
  title : Option String := none
  author : Option String := none
  isbn : Option String := none
  publishedYear : Option JSVal := none
  genre : Option String := none
  price : Option JSVal := none
  description : Option String := none
  pages : Option JSVal := none
  publisher : Option String := none
  language : Option String := none
  image : Option String := none
deriving Repr, DecidableEq

/-- Response of `POST /books`: the 400 validation case or the created
record with status 201. -/
inductive CreateResp where
  | badRequest
  | created (b : Book)
deriving Repr, DecidableEq

/-- The record built by `POST /books` (lines 104–120).  `currentYear` and
`nowISO` stand for `new Date().getFullYear()` and
`new Date().toISOString()`. -/
def newBookOf (books : List Book) (body : CreateBody) (currentYear : Int) (nowISO : String) :
    Book where
  id := (books.length : Int) + 1
  title := body.title.getD ""
  author := body.author.getD ""
  isbn := strOr body.isbn ""
  publishedYear := intOr body.publishedYear currentYear
  genre := body.genre.getD ""
  price := body.price.bind JSVal.toNumF
  description := strOr body.description ""
  pages := intOr body.pages 0
  publisher := strOr body.publisher ""
  language := strOr body.language "English"
  rating := 0
  stock := 0
  image := strOr body.image "https://images.pexels.com/photos/159711/books-bookstore-book-reading-159711.jpeg"
  createdAt := nowISO

/-- Handler of `POST /books` (lines 95–127): presence validation
`!title || !author || !genre || !price`, then append. -/
def handleCreate (books : List Book) (body : CreateBody) (currentYear : Int) (nowISO : String) :
    List Book × CreateResp :=
  if !strTruthy body.title || !strTruthy body.author || !strTruthy body.genre
      || !valTruthy body.price then
    (books, .badRequest)
  else
    (books ++ [newBookOf books body currentYear nowISO],
      .created (newBookOf books body currentYear nowISO))

/-- Request body of `PUT /books/:id`: any subset of record fields may be
supplied, including an `id`. -/
structure PutBody where
  id : Option Int := none
  title : Option String := none
  author : Option String := none
  isbn : Option String := none
  publishedYear : Option Int := none
  genre : Option String := none
  price : Option (Option ℚ) := none
  description : Option String := none
  pages : Option Int := none
  publisher : Option String := none
  language : Option String := none
  rating : Option ℚ := none
  stock : Option Int := none
  image : Option String := none
  createdAt : Option String := none
deriving Repr, DecidableEq

/-- The object spread of line 137, `{...old, ...body, id: old.id}`: every
field present in the body overwrites the stored one, and the id is then
forced back to the original. -/
def mergeBook (old : Book) (body : PutBody) : Book where
  id := old.id
  title := body.title.getD old.title
  author := body.author.getD old.author
  isbn := body.isbn.getD old.isbn
  publishedYear := body.publishedYear.getD old.publishedYear
  genre := body.genre.getD old.genre
  price := body.price.getD old.price
  description := body.description.getD old.description
  pages := body.pages.getD old.pages
  publisher := body.publisher.getD old.publisher
  language := body.language.getD old.language
  rating := body.rating.getD old.rating
  stock := body.stock.getD old.stock
  image := body.image.getD old.image
  createdAt := body.createdAt.getD old.createdAt

/-- Response of `PUT /books/:id`. -/
inductive PutResp where
  | notFound
  | ok (b : Book)
deriving Repr, DecidableEq

/-- Handler of `PUT /books/:id` (lines 130–144).  `findIndex` returning -1
is the `none` case; the inner `none` case is unreachable because
`findIdx?` always returns an index in range. -/
def handlePut (books : List Book) (idStr : String) (body : PutBody) : List Book × PutResp :=
  match books.findIdx? (idMatch idStr) with
  | none => (books, .notFound)
  | some i =>
    match books[i]? with
    | some old => (books.set i (mergeBook old body), .ok (mergeBook old body))
    | none => (books, .notFound)

/-- Response of `DELETE /books/:id`. -/
inductive DelResp where
  | notFound
  | ok (b : Book)
deriving Repr, DecidableEq

/-- Handler of `DELETE /books/:id` (lines 147–159): `splice(i, 1)` removes
the record at the found index and returns it.  The inner `none` case is
unreachable because `findIdx?` always returns an index in range. -/
def handleDelete (books : List Book) (idStr : String) : List Book × DelResp :=
  match books.findIdx? (idMatch idStr) with
  | none => (books, .notFound)
  | some i =>
    match books[i]? with
    | some old => (books.eraseIdx i, .ok old)
    | none => (books, .notFound)

/-- A sample record used by witnesses and counterexamples. -/
def bookA : Book where
  id := 1
  title := "Dune"
  author := "Frank Herbert"
  isbn := ""
  publishedYear := 1965
  genre := "Sci-Fi"
  price := some 12
  description := "Desert planet"
  pages := 412
  publisher := ""
  language := "English"
  rating := 0
  stock := 0
  image := ""
  createdAt := ""

/-- A second sample record. -/
def bookB : Book :=
  { bookA with
      id := 2
      title := "Emma"
      author := "Jane Austen"
      genre := "Fiction"
      publishedYear := 1815
      price := some 9 }

/-- A third sample record, sharing a genre with `bookB`. -/
def bookC : Book :=
  { bookA with
      id := 3
      title := "Persuasion"
      author := "Jane Austen"
      genre := "Fiction"
      publishedYear := 1817
      price := some 8 }

/-! ### Bridge lemmas -/

theorem condFilter_eq_filter (o : Option String) (p : String → Book → Bool) (l : List Book) :
    condFilter o p l = l.filter (fun b => condPass o p b) := by
  cases o with
  | none => simp [condFilter, condPass]
  | some s =>
    by_cases hs : s = "" <;> simp [condFilter, condPass, hs]

theorem applyFilters_eq_filter (books : List Book) (q : Query) :
    applyFilters books q = books.filter (matchesQuery q) := by
  unfold applyFilters matchesQuery
  simp only [condFilter_eq_filter, List.filter_filter]

theorem mem_setDedupAux (x : String) (seen l : List String) :
    x ∈ setDedupAux seen l ↔ x ∈ l ∧ x ∉ seen := by
  induction l generalizing seen with
  | nil => simp [setDedupAux]
  | cons a l ih =>
    by_cases ha : a ∈ seen
    · simp only [setDedupAux, if_pos ha, ih, List.mem_cons]
      constructor
      · exact fun ⟨hl, hs⟩ => ⟨Or.inr hl, hs⟩
      · rintro ⟨hx | hl, hs⟩
        · exact absurd (hx ▸ ha) hs
        · exact ⟨hl, hs⟩
    · simp only [setDedupAux, if_neg ha, List.mem_cons, ih]
      by_cases hxa : x = a
      · subst hxa
        simp [ha]
      · simp [hxa]

theorem nodup_setDedupAux (seen l : List String) : (setDedupAux seen l).Nodup := by
  induction l generalizing seen with
  | nil => exact List.nodup_nil
  | cons a l ih =>
    by_cases ha : a ∈ seen
    · simpa [setDedupAux, if_pos ha] using ih seen
    · simp only [setDedupAux, if_neg ha]
      refine List.Nodup.cons ?_ (ih (a :: seen))
      intro hmem
      rcases (mem_setDedupAux a (a :: seen) l).mp hmem with ⟨_, hns⟩
      exact hns (List.mem_cons_self a seen)

theorem mem_setDedup (x : String) (l : List String) : x ∈ setDedup l ↔ x ∈ l := by
  simp [setDedup, mem_setDedupAux]

theorem nodup_setDedup (l : List String) : (setDedup l).Nodup :=
  nodup_setDedupAux [] l

theorem charListLe_total (l1 : List Char) : ∀ l2, charListLe l1 l2 = true ∨ charListLe l2 l1 = true := by
  induction l1 with
  | nil => exact fun l2 => Or.inl rfl
  | cons a t1 ih =>
    intro l2
    cases l2 with
    | nil => exact Or.inr rfl
    | cons b t2 =>
      rcases lt_trichotomy a b with h | h | h
      · left
        simp [charListLe, h]
      · subst h
        rcases ih t2 with h2 | h2
        · left
          simp [charListLe, lt_irrefl, h2]
        · right
          simp [charListLe, lt_irrefl, h2]
      · right
        simp [charListLe, h]

theorem charListLe_trans (l1 : List Char) :
    ∀ l2 l3, charListLe l1 l2 = true → charListLe l2 l3 = true → charListLe l1 l3 = true := by
  induction l1 with
  | nil => intro l2 l3 _ _; rfl
  | cons a t1 ih =>
    intro l2 l3 h12 h23
    cases l2 with
    | nil => simp [charListLe] at h12
    | cons b t2 =>
      cases l3 with
      | nil => simp [charListLe] at h23
      | cons c t3 =>
        by_cases hab : a < b
        · by_cases hbc : b < c
          · simp [charListLe, lt_trans hab hbc]
          · by_cases hcb : c < b
            · simp [charListLe, hbc, hcb] at h23
            · have hbc2 : b = c := le_antisymm (le_of_not_lt hcb) (le_of_not_lt hbc)
              subst hbc2
              simp [charListLe, hab]
        · by_cases hba : b < a
          · simp [charListLe, hab, hba] at h12
          · have hab2 : a = b := le_antisymm (le_of_not_lt hba) (le_of_not_lt hab)
            subst hab2
            simp only [charListLe, if_neg (lt_irrefl a)] at h12
            by_cases hac : a < c
            · simp [charListLe, hac]
            · by_cases hca : c < a
              · simp [charListLe, hac, hca] at h23
              · have hac2 : a = c := le_antisymm (le_of_not_lt hca) (le_of_not_lt hac)
                subst hac2
                simp only [charListLe, if_neg (lt_irrefl a)] at h23 ⊢
                exact ih t2 t3 h12 h23

instance : IsTotal String (fun a b => strLeB a b = true) :=
  ⟨fun a b => charListLe_total a.data b.data⟩

instance : IsTrans String (fun a b => strLeB a b = true) :=
  ⟨fun a b c => charListLe_trans a.data b.data c.data⟩

theorem charListLe_iff_not_lex (l1 : List Char) :
    ∀ l2, charListLe l1 l2 = true ↔ ¬ List.Lex (fun x y : Char => x < y) l2 l1 := by
  induction l1 with
  | nil =>
    intro l2
    exact ⟨(fun _ h => nomatch h), fun _ => rfl⟩
  | cons a t1 ih =>
    intro l2
    cases l2 with
    | nil =>
      simp only [charListLe]
      exact ⟨(fun h => nomatch h), fun h => (h List.Lex.nil).elim⟩
    | cons b t2 =>
      simp only [charListLe]
      rcases lt_trichotomy a b with h | h | h
      · rw [if_pos h]
        refine ⟨fun _ hlex => ?_, fun _ => rfl⟩
        cases hlex with
        | rel h2 => exact absurd h2 (asymm h)
        | cons h2 => exact absurd h (lt_irrefl a)
      · subst h
        rw [if_neg (lt_irrefl a), if_neg (lt_irrefl a), ih t2]
        constructor
        · intro hn hlex
          cases hlex with
          | rel h2 => exact absurd h2 (lt_irrefl a)
          | cons h2 => exact hn h2
        · exact fun hn h2 => hn (List.Lex.cons h2)
      · rw [if_neg (asymm h), if_pos h]
        exact ⟨(fun hf => nomatch hf), fun hn => (hn (List.Lex.rel h)).elim⟩

theorem strLeB_le {a b : String} (h : strLeB a b = true) : a ≤ b := by
  rw [String.le_iff_toList_le, ← not_lt]
  intro hlt
  exact (charListLe_iff_not_lex a.data b.data).mp h hlt

theorem sortedDistinct_nodup (xs : List String) : (sortedDistinct xs).Nodup :=
  ((List.perm_insertionSort _ (setDedup xs)).nodup_iff).mpr (nodup_setDedup xs)

theorem sortedDistinct_sorted (xs : List String) :
    (sortedDistinct xs).Sorted (fun a b => a ≤ b) :=
  (List.sorted_insertionSort (fun a b => strLeB a b = true) (setDedup xs)).imp
    (fun hab => strLeB_le hab)

theorem mem_sortedDistinct (x : String) (xs : List String) :
    x ∈ sortedDistinct xs ↔ x ∈ xs := by
  rw [sortedDistinct, List.mem_insertionSort, mem_setDedup]

/-! ### Concrete request data used by witnesses and counterexamples -/

/-- A query whose only parameter is `limit=-1`. -/
def qNegOne : Query := { limit := some "-1" }

/-- A query whose only parameter is `limit=abc`. -/
def qAbc : Query := { limit := some "abc" }

/-- A create body supplying only a title. -/
def bodyOnlyTitle : CreateBody := { title := some "X" }

/-- A create body with every required field present and truthy. -/
def bodyFull : CreateBody :=
  { title := some "X", author := some "Y", genre := some "G", price := some (JSVal.num 5) }

/-- A create body whose price is the number 0 (falsy in JS). -/
def bodyZeroPrice : CreateBody :=
  { title := some "X", author := some "Y", genre := some "G", price := some (JSVal.num 0) }

/-- A create body whose price is the string "0" (truthy in JS). -/
def bodyStrZeroPrice : CreateBody :=
  { title := some "X", author := some "Y", genre := some "G", price := some (JSVal.str "0") }

/-- An update body that supplies a new id and a new title. -/
def bodyNewId : PutBody := { id := some 99, title := some "Renamed" }

/-! ### Claims -/

/-- C1, counterexample: the response of `GET /books` does not always have
`showing = min(total, limit)`.  With two books and `limit=-1` (which
`parseInt` accepts as the integer -1), `slice(0, -1)` drops the last element,
so `showing` is 1, while `min(total, limit) = min(2, -1) = -1`. -/
theorem getBooks_showing_min_claim_false :
    effLimit qNegOne = some (-1) ∧
    ¬ (((handleGetBooks [bookA, bookB] qNegOne).2.showing : Int) =
        min (((handleGetBooks [bookA, bookB] qNegOne).2.total : Int)) (-1)) := by
  decide

/-- C1 (amended to nonnegative limits): for every collection and query whose
effective limit (the default 22 when absent) parses to a nonnegative integer
`k`, the `GET /books` response has `showing = min total k`, `total` equal to
the number of books satisfying the conjunction of all supplied filter
predicates, and every returned book satisfies that conjunction. -/
theorem getBooks_spec (books : List Book) (q : Query) (k : Int)
    (hk : effLimit q = some k) (h0 : 0 ≤ k) :
    (handleGetBooks books q).2.showing = min (handleGetBooks books q).2.total k.toNat ∧
    (handleGetBooks books q).2.total = (books.filter (matchesQuery q)).length ∧
    ∀ b ∈ (handleGetBooks books q).2.books, matchesQuery q b = true := by
  have hslice : jsSlice (applyFilters books q) (effLimit q) =
      (applyFilters books q).take k.toNat := by
    rw [hk]
    simp [jsSlice, if_pos h0]
  refine ⟨?_, ?_, ?_⟩
  · show (jsSlice (applyFilters books q) (effLimit q)).length =
      min (applyFilters books q).length k.toNat
    rw [hslice, List.length_take, Nat.min_comm]
  · show (applyFilters books q).length = (books.filter (matchesQuery q)).length
    rw [applyFilters_eq_filter]
  · show ∀ b ∈ jsSlice (applyFilters books q) (effLimit q), matchesQuery q b = true
    intro b hb
    rw [hslice] at hb
    have hbf : b ∈ applyFilters books q := List.take_subset _ _ hb
    rw [applyFilters_eq_filter] at hbf
    exact (List.mem_filter.mp hbf).2

/-- C1 witness: the amended statement holds on a one-book collection with an
empty query (default limit 22). -/
theorem getBooks_spec_witness :
    effLimit {} = some 22 ∧ (0 : Int) ≤ 22 ∧
    ((handleGetBooks [bookA] {}).2.showing = min (handleGetBooks [bookA] {}).2.total (Int.toNat 22) ∧
     (handleGetBooks [bookA] {}).2.total = ([bookA].filter (matchesQuery {})).length ∧
     ∀ b ∈ (handleGetBooks [bookA] {}).2.books, matchesQuery {} b = true) :=
  ⟨rfl, by decide, getBooks_spec [bookA] {} 22 rfl (by decide)⟩

/-- C2 (confirmed): a create request missing any of title, author, genre or
price is answered with the 400 validation response and the collection is
returned unchanged: no book is appended. -/
theorem create_missing_required_rejected (books : List Book) (body : CreateBody)
    (y : Int) (t : String)
    (h : body.title = none ∨ body.author = none ∨ body.genre = none ∨ body.price = none) :
    handleCreate books body y t = (books, CreateResp.badRequest) := by
  unfold handleCreate
  rcases h with h | h | h | h <;> simp [h, strTruthy, valTruthy]

/-- C2 witness: a body carrying only a title is rejected and the collection
is unchanged. -/
theorem create_missing_required_rejected_witness :
    bodyOnlyTitle.author = none ∧
    handleCreate [bookA] bodyOnlyTitle 2024 "ts" = ([bookA], CreateResp.badRequest) :=
  ⟨rfl, create_missing_required_rejected [bookA] bodyOnlyTitle 2024 "ts" (Or.inr (Or.inl rfl))⟩

/-- C3 (confirmed): a create request with all required fields present and
truthy appends exactly one record at the end of the collection, leaving all
pre-existing records unchanged; the new record's id is the collection size
at creation time plus 1, and the created record is returned (status 201). -/
theorem create_appends_with_next_id (books : List Book) (body : CreateBody)
    (y : Int) (t : String)
    (ht : strTruthy body.title = true) (ha : strTruthy body.author = true)
    (hg : strTruthy body.genre = true) (hp : valTruthy body.price = true) :
    handleCreate books body y t =
      (books ++ [newBookOf books body y t], CreateResp.created (newBookOf books body y t)) ∧
    (newBookOf books body y t).id = (books.length : Int) + 1 := by
  refine ⟨?_, rfl⟩
  unfold handleCreate
  rw [if_neg]
  simp [ht, ha, hg, hp]

/-- C3 witness: creating on a one-book collection appends a record with
id 2. -/
theorem create_appends_with_next_id_witness :
    strTruthy bodyFull.title = true ∧ strTruthy bodyFull.author = true ∧
    strTruthy bodyFull.genre = true ∧ valTruthy bodyFull.price = true ∧
    (handleCreate [bookA] bodyFull 2024 "ts" =
      ([bookA] ++ [newBookOf [bookA] bodyFull 2024 "ts"],
        CreateResp.created (newBookOf [bookA] bodyFull 2024 "ts")) ∧
     (newBookOf [bookA] bodyFull 2024 "ts").id = (([bookA].length : Nat) : Int) + 1) :=
  ⟨rfl, rfl, rfl, rfl, create_appends_with_next_id [bookA] bodyFull 2024 "ts" rfl rfl rfl rfl⟩

/-- C4 (confirmed): when the `:id` parameter denotes no identifier present in
the collection, `GET /books/:id`, `PUT /books/:id` and `DELETE /books/:id`
all answer 404 not-found and leave the collection unmodified (same records,
same order). -/
theorem missing_id_not_found (books : List Book) (idStr : String) (body : PutBody)
    (h : ∀ b ∈ books, parseIntJS idStr ≠ some b.id) :
    handleGetBook books idStr = (books, GetResp.notFound) ∧
    handlePut books idStr body = (books, PutResp.notFound) ∧
    handleDelete books idStr = (books, DelResp.notFound) := by
  have hm : ∀ b ∈ books, idMatch idStr b = false := by
    intro b hb
    unfold idMatch
    cases hp : parseIntJS idStr with
    | none => rfl
    | some k =>
      have hne := h b hb
      rw [hp] at hne
      simp only [ne_eq, Option.some.injEq] at hne
      simp only [decide_eq_false_iff_not]
      exact fun he => hne he.symm
  have hfind : books.find? (idMatch idStr) = none :=
    List.find?_eq_none.mpr (fun x hx => by simp [hm x hx])
  have hidx : books.findIdx? (idMatch idStr) = none :=
    List.findIdx?_eq_none_iff.mpr hm
  refine ⟨?_, ?_, ?_⟩
  · simp [handleGetBook, hfind]
  · simp [handlePut, hidx]
  · simp [handleDelete, hidx]

/-- C4 witness: id 999 is absent from a two-book collection and all three
routes answer not-found without touching the collection. -/
theorem missing_id_not_found_witness :
    (∀ b ∈ [bookA, bookB], parseIntJS "999" ≠ some b.id) ∧
    (handleGetBook [bookA, bookB] "999" = ([bookA, bookB], GetResp.notFound) ∧
     handlePut [bookA, bookB] "999" bodyNewId = ([bookA, bookB], PutResp.notFound) ∧
     handleDelete [bookA, bookB] "999" = ([bookA, bookB], DelResp.notFound)) :=
  ⟨by decide, missing_id_not_found [bookA, bookB] "999" bodyNewId (by decide)⟩

/-- C5 (confirmed): updating an existing book answers with a record whose id
equals the original record's id, whatever id the request body supplies. -/
theorem put_preserves_id (books : List Book) (idStr : String) (body : PutBody)
    (i : Nat) (old : Book)
    (hi : books.findIdx? (idMatch idStr) = some i) (hold : books[i]? = some old) :
    (handlePut books idStr body).2 = PutResp.ok (mergeBook old body) ∧
    (mergeBook old body).id = old.id := by
  refine ⟨?_, rfl⟩
  simp [handlePut, hi, hold]

/-- C5 witness: updating book 1 with a body carrying `id := 99` still answers
a record with id 1. -/
theorem put_preserves_id_witness :
    [bookA].findIdx? (idMatch "1") = some 0 ∧ [bookA][0]? = some bookA ∧
    ((handlePut [bookA] "1" bodyNewId).2 = PutResp.ok (mergeBook bookA bodyNewId) ∧
     (mergeBook bookA bodyNewId).id = bookA.id) :=
  ⟨rfl, rfl, put_preserves_id [bookA] "1" bodyNewId 0 bookA rfl rfl⟩

/-- C6 (confirmed): updating an existing book performs a shallow merge:
every non-id field present in the body overwrites the stored value, omitted
fields keep their stored value, the id is forced to the original, the merged
record is both stored at the same position and returned, and every other
position of the collection is unchanged. -/
theorem put_is_shallow_merge (books : List Book) (idStr : String) (body : PutBody)
    (i : Nat) (old : Book) (j : Nat)
    (hi : books.findIdx? (idMatch idStr) = some i) (hold : books[i]? = some old)
    (hj : j ≠ i) :
    handlePut books idStr body =
      (books.set i (mergeBook old body), PutResp.ok (mergeBook old body)) ∧
    (mergeBook old body).id = old.id ∧
    (mergeBook old body).title = body.title.getD old.title ∧
    (mergeBook old body).author = body.author.getD old.author ∧
    (mergeBook old body).isbn = body.isbn.getD old.isbn ∧
    (mergeBook old body).publishedYear = body.publishedYear.getD old.publishedYear ∧
    (mergeBook old body).genre = body.genre.getD old.genre ∧
    (mergeBook old body).price = body.price.getD old.price ∧
    (mergeBook old body).description = body.description.getD old.description ∧
    (mergeBook old body).pages = body.pages.getD old.pages ∧
    (mergeBook old body).publisher = body.publisher.getD old.publisher ∧
    (mergeBook old body).language = body.language.getD old.language ∧
    (mergeBook old body).rating = body.rating.getD old.rating ∧
    (mergeBook old body).stock = body.stock.getD old.stock ∧
    (mergeBook old body).image = body.image.getD old.image ∧
    (mergeBook old body).createdAt = body.createdAt.getD old.createdAt ∧
    (books.set i (mergeBook old body))[j]? = books[j]? := by
  refine ⟨?_, rfl, rfl, rfl, rfl, rfl, rfl, rfl, rfl, rfl, rfl, rfl, rfl, rfl, rfl, rfl, ?_⟩
  · simp [handlePut, hi, hold]
  · exact List.getElem?_set_ne (Ne.symm hj)

/-- C6 witness: updating book 1 of a two-book collection merges the body
over it and leaves position 1 unchanged. -/
theorem put_is_shallow_merge_witness :
    [bookA, bookB].findIdx? (idMatch "1") = some 0 ∧
    [bookA, bookB][0]? = some bookA ∧ (1 : Nat) ≠ 0 ∧
    (handlePut [bookA, bookB] "1" bodyNewId =
      ([bookA, bookB].set 0 (mergeBook bookA bodyNewId),
        PutResp.ok (mergeBook bookA bodyNewId)) ∧
     (mergeBook bookA bodyNewId).id = bookA.id ∧
     (mergeBook bookA bodyNewId).title = bodyNewId.title.getD bookA.title ∧
     (mergeBook bookA bodyNewId).author = bodyNewId.author.getD bookA.author ∧
     (mergeBook bookA bodyNewId).isbn = bodyNewId.isbn.getD bookA.isbn ∧
     (mergeBook bookA bodyNewId).publishedYear = bodyNewId.publishedYear.getD bookA.publishedYear ∧
     (mergeBook bookA bodyNewId).genre = bodyNewId.genre.getD bookA.genre ∧
     (mergeBook bookA bodyNewId).price = bodyNewId.price.getD bookA.price ∧
     (mergeBook bookA bodyNewId).description = bodyNewId.description.getD bookA.description ∧
     (mergeBook bookA bodyNewId).pages = bodyNewId.pages.getD bookA.pages ∧
     (mergeBook bookA bodyNewId).publisher = bodyNewId.publisher.getD bookA.publisher ∧
     (mergeBook bookA bodyNewId).language = bodyNewId.language.getD bookA.language ∧
     (mergeBook bookA bodyNewId).rating = bodyNewId.rating.getD bookA.rating ∧
     (mergeBook bookA bodyNewId).stock = bodyNewId.stock.getD bookA.stock ∧
     (mergeBook bookA bodyNewId).image = bodyNewId.image.getD bookA.image ∧
     (mergeBook bookA bodyNewId).createdAt = bodyNewId.createdAt.getD bookA.createdAt ∧
     ([bookA, bookB].set 0 (mergeBook bookA bodyNewId))[1]? = [bookA, bookB][1]?) :=
  ⟨rfl, rfl, by decide,
    put_is_shallow_merge [bookA, bookB] "1" bodyNewId 0 bookA 1 rfl rfl (by decide)⟩

/-- C7 (confirmed): the genre and author metadata routes return the distinct
genres (authors) of the current collection, with no duplicates, sorted
ascending; and on a seed whose genres are Fiction, Sci-Fi, Fiction the genre
route returns exactly Fiction then Sci-Fi. -/
theorem meta_sorted_distinct (books : List Book) :
    ((handleGenres books).2.Nodup ∧
      List.Sorted (fun a b : String => a ≤ b) (handleGenres books).2 ∧
      (∀ g, g ∈ (handleGenres books).2 ↔ ∃ b ∈ books, b.genre = g)) ∧
    ((handleAuthors books).2.Nodup ∧
      List.Sorted (fun a b : String => a ≤ b) (handleAuthors books).2 ∧
      (∀ a, a ∈ (handleAuthors books).2 ↔ ∃ b ∈ books, b.author = a)) ∧
    (handleGenres [bookB, bookA, bookC]).2 = ["Fiction", "Sci-Fi"] := by
  refine ⟨⟨sortedDistinct_nodup _, sortedDistinct_sorted _, ?_⟩,
    ⟨sortedDistinct_nodup _, sortedDistinct_sorted _, ?_⟩, ?_⟩
  · intro g
    simp [handleGenres, mem_sortedDistinct, List.mem_map]
  · intro a
    simp [handleAuthors, mem_sortedDistinct, List.mem_map]
  · decide

/-- C8 (confirmed): every read route (`GET /books`, `GET /books/:id`,
`GET /books/meta/genres`, `GET /books/meta/authors`) leaves the collection
unchanged for every input. -/
theorem read_routes_preserve_books (books : List Book) (q : Query) (idStr : String) :
    (handleGetBooks books q).1 = books ∧ (handleGetBook books idStr).1 = books ∧
    (handleGenres books).1 = books ∧ (handleAuthors books).1 = books := by
  refine ⟨rfl, ?_, rfl, rfl⟩
  unfold handleGetBook
  cases books.find? (idMatch idStr) <;> rfl

/-- C9, counterexample: a create request whose price is the string "0" is NOT
rejected: a non-empty string is truthy in JS, so validation passes and a
book is appended. -/
theorem create_price_string_zero_accepted :
    (handleCreate [] bodyStrZeroPrice 2024 "ts").2 ≠ CreateResp.badRequest ∧
    (handleCreate [] bodyStrZeroPrice 2024 "ts").1.length = 1 := by
  decide

/-- C9 (amended to the numeric case): a create request whose price field is
present and equal to the number 0 is rejected with the 400 validation
response, because the presence check treats any falsy price as missing. -/
theorem create_price_zero_rejected (books : List Book) (body : CreateBody)
    (y : Int) (t : String) (h : body.price = some (JSVal.num 0)) :
    handleCreate books body y t = (books, CreateResp.badRequest) := by
  have hc : valTruthy body.price = false := by
    simp [h, valTruthy, JSVal.truthy]
  unfold handleCreate
  simp [hc]

/-- C9 witness: a body with numeric price 0 and all other required fields
present is rejected. -/
theorem create_price_zero_rejected_witness :
    bodyZeroPrice.price = some (JSVal.num 0) ∧
    handleCreate [bookA] bodyZeroPrice 2024 "ts" = ([bookA], CreateResp.badRequest) :=
  ⟨rfl, create_price_zero_rejected [bookA] bodyZeroPrice 2024 "ts" rfl⟩

/-- C10 (confirmed): when the limit parameter is a non-numeric string,
`parseInt` yields NaN, `slice(0, NaN)` yields no elements, and the response
has an empty book list, `showing = 0`, and `total` the full count of books
matching the other filters. -/
theorem getBooks_nan_limit (books : List Book) (q : Query) (s : String)
    (hq : q.limit = some s) (hs : parseIntJS s = none) :
    (handleGetBooks books q).2.books = [] ∧
    (handleGetBooks books q).2.showing = 0 ∧
    (handleGetBooks books q).2.total = (books.filter (matchesQuery q)).length := by
  have he : effLimit q = none := by
    simp [effLimit, hq, hs]
  refine ⟨?_, ?_, ?_⟩
  · show jsSlice (applyFilters books q) (effLimit q) = []
    rw [he]
    rfl
  · show (jsSlice (applyFilters books q) (effLimit q)).length = 0
    rw [he]
    rfl
  · show (applyFilters books q).length = (books.filter (matchesQuery q)).length
    rw [applyFilters_eq_filter]

/-- C10 witness: `limit=abc` on a one-book collection returns no books,
`showing = 0`, `total = 1`. -/
theorem getBooks_nan_limit_witness :
    qAbc.limit = some "abc" ∧ parseIntJS "abc" = none ∧
    ((handleGetBooks [bookA] qAbc).2.books = [] ∧
     (handleGetBooks [bookA] qAbc).2.showing = 0 ∧
     (handleGetBooks [bookA] qAbc).2.total = ([bookA].filter (matchesQuery qAbc)).length) :=
  ⟨rfl, rfl, getBooks_nan_limit [bookA] qAbc "abc" rfl rfl⟩

end BooksApi
